import Mathlib

/-!
Shallow embedding of `src/app.py` (a Streamlit retrieval-augmented
question-answering assistant) for verifying the repository specification.

External collaborators (OpenAI embeddings/chat, the Pinecone vector store,
the flashrank cross-encoder model, Streamlit widgets) are modelled as
abstract function parameters; the repository's own logic (secret loading,
topic-file loading, search-kwargs construction, `rerank_docs`, the chat
handler branch on empty retrieval, the transcript appends) is translated
line by line.
-/

/-- A document chunk as returned by the vector-store retriever
(`retriever.get_relevant_documents`).  The app only reads
`doc.page_content` (app.py line 52), so that is the only field modelled. -/
structure Document where
  page_content : String
deriving DecidableEq, Repr

/-- The metadata filter the app can attach to a similarity search:
`search_kwargs['filter'] = {"topics": {"$in": [selected_filter]}}`
(app.py line 119), i.e. a membership test of the listed values against the
chunk metadata field named by `field`. -/
inductive MetadataFilter where
  | inMember (field : String) (values : List String) : MetadataFilter
deriving DecidableEq, Repr

/-- The `search_kwargs` dictionary passed to `vector_store.as_retriever`
(app.py lines 117-121): a top-k bound and an optional metadata filter. -/
structure SearchKwargs where
  k : Nat
  filter : Option MetadataFilter
deriving DecidableEq, Repr

/-- app.py lines 117-119: `search_kwargs = {"k": 25}` and, when
`selected_filter != "All"`, the added entry
`search_kwargs['filter'] = {"topics": {"$in": [selected_filter]}}`. -/
def mkSearchKwargs (selected_filter : String) : SearchKwargs :=
  let search_kwargs : SearchKwargs := { k := 25, filter := none }
  if selected_filter ≠ "All" then
    { search_kwargs with filter := some (MetadataFilter.inMember "topics" [selected_filter]) }
  else
    search_kwargs

/-- One entry of the list `ranker.rerank(...)` returns: a dict carrying
the passage text and its cross-encoder relevance score. -/
structure RankedResult where
  text : String
  score : Int
deriving DecidableEq, Repr

/-- Stable insertion of a result into a list already sorted by descending
score.  The tail holds elements that originally came after `p`, so `p` is
placed before the first of them whose score does not exceed `p`'s: equal
scores keep their original relative order, as Python's stable
`sort(..., reverse=True)` does. -/
def insertByScoreDesc (p : RankedResult) : List RankedResult → List RankedResult
  | [] => [p]
  | q :: qs => if q.score ≤ p.score then p :: q :: qs else q :: insertByScoreDesc p qs

/-- Stable sort of scored results by descending score. -/
def sortByScoreDesc : List RankedResult → List RankedResult
  | [] => []
  | p :: ps => insertByScoreDesc p (sortByScoreDesc ps)

/-- Model of `ranker.rerank(RerankRequest(query=query, passages=passages))`
(app.py lines 53-54): the flashrank cross-encoder assigns each passage a
relevance score against the query and returns the scored passages ordered
by descending score.  The scoring model itself is an external collaborator,
so it is the abstract parameter `score`. -/
def rankerRerank (score : String → String → Int) (query : String)
    (passages : List String) : List RankedResult :=
  sortByScoreDesc (passages.map (fun p => { text := p, score := score query p }))

/-- app.py lines 50-55, `rerank_docs(query, docs)`: extract
`doc.page_content` from each doc, rerank via flashrank, and return
`[result['text'] for result in reranked_results[:5]]`. -/
def rerank_docs (score : String → String → Int) (query : String)
    (docs : List Document) : List String :=
  let passages := docs.map (fun doc => doc.page_content)
  let reranked_results := rankerRerank score query passages
  (reranked_results.take 5).map (fun result => result.text)

/-- The configuration the startup block produces (app.py lines 20-23). -/
structure AppConfig where
  openai_api_key : String
  pinecone_api_key : String
  index_name : String
deriving DecidableEq, Repr

/-- app.py line 25: the `st.error` text for a missing secret,
`f"🚨 Missing Secret: Please set {e} ..."`, where `e` is the `KeyError`
carrying the quoted key name. -/
def missingSecretMessage (key : String) : String :=
  "🚨 Missing Secret: Please set '" ++ key ++ "' in your Streamlit Cloud app settings."

/-- app.py lines 19-26: the startup `try` block.  `st.secrets[k]` raises
`KeyError` when `k` is absent (modelled by `secrets k = none`); the
`except KeyError` handler shows `missingSecretMessage` and calls
`st.stop()`, so no configuration is produced (modelled by `Except.error`).
`PINECONE_INDEX_NAME` is read with `.get` and a default, so its absence
never raises. -/
def loadConfig (secrets : String → Option String) : Except String AppConfig :=
  match secrets "OPENAI_API_KEY" with
  | none => Except.error (missingSecretMessage "OPENAI_API_KEY")
  | some openai_api_key =>
    match secrets "PINECONE_API_KEY" with
    | none => Except.error (missingSecretMessage "PINECONE_API_KEY")
    | some pinecone_api_key =>
      Except.ok
        { openai_api_key := openai_api_key
          pinecone_api_key := pinecone_api_key
          index_name := (secrets "PINECONE_INDEX_NAME").getD "eller-executive-edu-ak-final" }

/-- What opening `topics.json` can yield: the file is missing
(`FileNotFoundError`) or it has some text content. -/
inductive FileRead where
  | missing : FileRead
  | content : String → FileRead
deriving DecidableEq, Repr

/-- app.py lines 89-94: the sidebar topic loading.  The `try` block opens
`topics.json` and calls `json.load`; the sole `except FileNotFoundError`
handler degrades to `["All"]`.  `jsonLoad` abstracts Python's `json.load`
(`none` = the content is malformed and `json.load` raises
`json.JSONDecodeError`); that exception is NOT caught by the handler, so
it propagates out of the script — modelled by `Except.error`. -/
def loadAvailableFilters (file : FileRead) (jsonLoad : String → Option (List String)) :
    Except String (List String) :=
  match file with
  | FileRead.missing => Except.ok ["All"]
  | FileRead.content s =>
    match jsonLoad s with
    | some available_filters => Except.ok available_filters
    | none => Except.error "json.decoder.JSONDecodeError"

/-- app.py line 125: the fixed response when retrieval returns no chunks. -/
def noInfoMessage : String :=
  "I could not find relevant information for that specific topic. Please try another search or select 'All' from the dropdown."

/-- app.py line 127: the separator joining the reranked passages. -/
def contextSeparator : String := "\n\n---\n\n"

/-- The outcome of one pass through the RAG execution logic, instrumented
with the list of `(question, context)` argument pairs passed to
`generate_answer_chain.invoke` so that generator invocations are
observable. -/
structure TurnResult where
  response : String
  genCalls : List (String × String)
deriving DecidableEq, Repr

/-- app.py lines 117-131, the RAG execution logic of the chat handler:
build `search_kwargs` from the sidebar selection, retrieve, and either
return the fixed no-information message (empty retrieval) or invoke the
generation chain on the question and the reranked context.  `retrieve`
abstracts `vector_store.as_retriever(...).get_relevant_documents`;
`generate` abstracts `generate_answer_chain.invoke`. -/
def runChatTurn (retrieve : SearchKwargs → String → List Document)
    (score : String → String → Int)
    (generate : String → String → String)
    (selected_filter : String) (user_prompt : String) : TurnResult :=
  let search_kwargs := mkSearchKwargs selected_filter
  let initial_docs := retrieve search_kwargs user_prompt
  if initial_docs.isEmpty then
    { response := noInfoMessage, genCalls := [] }
  else
    let reranked_context :=
      String.intercalate contextSeparator (rerank_docs score user_prompt initial_docs)
    { response := generate user_prompt reranked_context
      genCalls := [(user_prompt, reranked_context)] }

/-- One entry of `st.session_state.messages` (app.py lines 110, 135). -/
structure ChatMessage where
  role : String
  content : String
deriving DecidableEq, Repr

/-- app.py lines 109-135, one execution of the `if user_prompt :=
st.chat_input(...)` block: append the user turn (line 110), run the RAG
logic, append the assistant turn (line 135).  Returns the new transcript
and the response shown. -/
def handleUserPrompt (retrieve : SearchKwargs → String → List Document)
    (score : String → String → Int)
    (generate : String → String → String)
    (selected_filter : String)
    (messages : List ChatMessage) (user_prompt : String) :
    List ChatMessage × String :=
  let messages1 := messages ++ [{ role := "user", content := user_prompt }]
  let turn := runChatTurn retrieve score generate selected_filter user_prompt
  (messages1 ++ [{ role := "assistant", content := turn.response }], turn.response)

/-- Fallible variant of `rerank_docs`: `rank` abstracts the
`ranker.rerank` backend call, which may raise (modelled by
`Except.error`).  `rerank_docs` itself adds no exception handling
(app.py lines 50-55), so an error propagates. -/
def rerank_docsE (rank : String → List String → Except String (List RankedResult))
    (query : String) (docs : List Document) : Except String (List String) :=
  let passages := docs.map (fun doc => doc.page_content)
  match rank query passages with
  | Except.error e => Except.error e
  | Except.ok reranked_results =>
    Except.ok ((reranked_results.take 5).map (fun result => result.text))

/-- The RAG execution logic (app.py lines 117-131) with fallible backends:
each of retrieval (`retriever.get_relevant_documents`), reranking
(`ranker.rerank`) and generation (`generate_answer_chain.invoke`) may
raise.  The handler wraps none of these calls in `try`/`except`, so a
raised exception aborts the block before `response` is produced —
modelled by returning `Except.error`. -/
def runChatTurnE (retrieve : SearchKwargs → String → Except String (List Document))
    (rank : String → List String → Except String (List RankedResult))
    (generate : String → String → Except String String)
    (selected_filter : String) (user_prompt : String) : Except String TurnResult :=
  let search_kwargs := mkSearchKwargs selected_filter
  match retrieve search_kwargs user_prompt with
  | Except.error e => Except.error e
  | Except.ok initial_docs =>
    if initial_docs.isEmpty then
      Except.ok { response := noInfoMessage, genCalls := [] }
    else
      match rerank_docsE rank user_prompt initial_docs with
      | Except.error e => Except.error e
      | Except.ok reranked =>
        let reranked_context := String.intercalate contextSeparator reranked
        match generate user_prompt reranked_context with
        | Except.error e => Except.error e
        | Except.ok response =>
          Except.ok { response := response, genCalls := [(user_prompt, reranked_context)] }

/-- The chat handler (app.py lines 109-135) with fallible backends: the
user turn is appended first (line 110); if the RAG logic raises, the
exception propagates out of the handler uncaught (Streamlit's script
runner receives it), the assistant append on line 135 is never reached,
and `st.session_state.messages` keeps what was appended so far. -/
def handleUserPromptE (retrieve : SearchKwargs → String → Except String (List Document))
    (rank : String → List String → Except String (List RankedResult))
    (generate : String → String → Except String String)
    (selected_filter : String)
    (messages : List ChatMessage) (user_prompt : String) :
    List ChatMessage × Except String String :=
  let messages1 := messages ++ [{ role := "user", content := user_prompt }]
  match runChatTurnE retrieve rank generate selected_filter user_prompt with
  | Except.ok turn =>
    (messages1 ++ [{ role := "assistant", content := turn.response }], Except.ok turn.response)
  | Except.error e => (messages1, Except.error e)

/-! ## Helper lemmas about the reranker's sort -/

theorem insertByScoreDesc_perm (p : RankedResult) (l : List RankedResult) :
    (insertByScoreDesc p l).Perm (p :: l) := by
  induction l with
  | nil => exact List.Perm.refl _
  | cons q qs ih =>
    unfold insertByScoreDesc
    by_cases h : q.score ≤ p.score
    · simp only [if_pos h]
      exact List.Perm.refl _
    · simp only [if_neg h]
      exact (ih.cons q).trans (List.Perm.swap p q qs)

theorem sortByScoreDesc_perm (l : List RankedResult) :
    (sortByScoreDesc l).Perm l := by
  induction l with
  | nil => exact List.Perm.refl _
  | cons p ps ih =>
    exact (insertByScoreDesc_perm p (sortByScoreDesc ps)).trans (ih.cons p)

theorem rankerRerank_perm (score : String → String → Int) (query : String)
    (passages : List String) :
    (rankerRerank score query passages).Perm
      (passages.map (fun p => { text := p, score := score query p })) :=
  sortByScoreDesc_perm _

theorem rankerRerank_length (score : String → String → Int) (query : String)
    (passages : List String) :
    (rankerRerank score query passages).length = passages.length := by
  rw [(rankerRerank_perm score query passages).length_eq, List.length_map]

theorem rerank_docs_count_le (score : String → String → Int) (query : String)
    (docs : List Document) (t : String) :
    (rerank_docs score query docs).count t ≤
      (docs.map (fun doc => doc.page_content)).count t := by
  unfold rerank_docs
  have hsub :
      List.Sublist (((rankerRerank score query
          (docs.map (fun doc => doc.page_content))).take 5).map (fun result => result.text))
        ((rankerRerank score query
          (docs.map (fun doc => doc.page_content))).map (fun result => result.text)) :=
    (List.take_sublist 5 _).map _
  refine le_trans (hsub.count_le t) ?_
  have hperm := (rankerRerank_perm score query
      (docs.map (fun doc => doc.page_content))).map (fun result => result.text)
  rw [hperm.count_eq t, List.map_map, List.map_map]
  simp only [Function.comp_def]
  exact le_rfl

/-! ## Claim theorems -/

/-- C1: For every question and every topic filter, if retrieval returns zero
chunks then the chat handler's response is exactly the fixed
no-information message and the Answer Generator is never invoked on that
turn (its recorded call list is empty). -/
theorem C1_empty_retrieval_fixed_message
    (retrieve : SearchKwargs → String → List Document)
    (score : String → String → Int) (generate : String → String → String)
    (selected_filter user_prompt : String)
    (h : retrieve (mkSearchKwargs selected_filter) user_prompt = []) :
    runChatTurn retrieve score generate selected_filter user_prompt =
      { response := noInfoMessage, genCalls := [] } := by
  unfold runChatTurn
  simp [h]

/-- Witness for C1 at a concrete empty-returning retriever. -/
theorem C1_empty_retrieval_fixed_message_witness :
    ((fun (_ : SearchKwargs) (_ : String) => ([] : List Document))
        (mkSearchKwargs "Finance") "What is value-based pricing?" = []) ∧
    runChatTurn (fun _ _ => []) (fun _ _ => 0) (fun _ _ => "generated")
        "Finance" "What is value-based pricing?" =
      { response := noInfoMessage, genCalls := [] } :=
  ⟨rfl, C1_empty_retrieval_fixed_message _ _ _ _ _ rfl⟩

/-- C2: For every query and every candidate list (the empty list included),
`rerank_docs` returns a list of texts of length `min 5 (number of
candidates)`, and on empty input it returns the empty list (it is total,
so it does not fail); in particular with `0 < n < 5` candidates it returns
all `n` of them, with no padding. -/
theorem C2_rerank_length (score : String → String → Int) (query : String)
    (docs : List Document) :
    (rerank_docs score query docs).length = min 5 docs.length ∧
    rerank_docs score query [] = [] := by
  constructor
  · unfold rerank_docs
    rw [List.length_map, List.length_take, rankerRerank_length, List.length_map]
  · rfl

/-- C3: every text in the reranker's output is the content of some input
candidate, and each text occurs in the output at most as often as it does
among the input candidate contents (no fabrication, no duplication). -/
theorem C3_rerank_subset_of_input (score : String → String → Int) (query : String)
    (docs : List Document) (t : String) :
    (rerank_docs score query docs).count t ≤
      (docs.map (fun doc => doc.page_content)).count t ∧
    (t ∈ rerank_docs score query docs → t ∈ docs.map (fun doc => doc.page_content)) := by
  refine ⟨rerank_docs_count_le score query docs t, fun ht => ?_⟩
  have hle := rerank_docs_count_le score query docs t
  have hpos : 0 < (rerank_docs score query docs).count t := List.count_pos_iff.mpr ht
  exact List.count_pos_iff.mp (lt_of_lt_of_le hpos hle)

/-- Witness for C3 at a concrete one-candidate input. -/
theorem C3_rerank_subset_of_input_witness :
    ((rerank_docs (fun _ _ => 0) "q" [Document.mk "chunk a"]).count "chunk a" ≤
      ([Document.mk "chunk a"].map (fun doc => doc.page_content)).count "chunk a") ∧
    "chunk a" ∈ [Document.mk "chunk a"].map (fun doc => doc.page_content) :=
  ⟨(C3_rerank_subset_of_input (fun _ _ => 0) "q" [Document.mk "chunk a"] "chunk a").1,
   (C3_rerank_subset_of_input (fun _ _ => 0) "q" [Document.mk "chunk a"] "chunk a").2
     (by decide)⟩

/-- C4: every turn's retrieval request uses `k = 25`, and the metadata
filter is absent if and only if the selected topic filter is the sentinel
`"All"`; any other selection attaches the membership filter requiring the
selected value to be in the chunk's `topics` set. -/
theorem C4_search_kwargs_filter (selected_filter : String) :
    (mkSearchKwargs selected_filter).k = 25 ∧
    ((mkSearchKwargs selected_filter).filter = none ↔ selected_filter = "All") ∧
    (mkSearchKwargs selected_filter).filter =
      (if selected_filter = "All" then none
        else some (MetadataFilter.inMember "topics" [selected_filter])) := by
  unfold mkSearchKwargs
  by_cases h : selected_filter = "All" <;> simp [h]

/-- C5: on every turn where retrieval returns at least one chunk, the
Answer Generator is invoked exactly once, with the question and a context
equal to that turn's reranked passages joined by the separator (and
nothing else), and the response is the Generator's output. -/
theorem C5_generator_invoked_once
    (retrieve : SearchKwargs → String → List Document)
    (score : String → String → Int) (generate : String → String → String)
    (selected_filter user_prompt : String)
    (h : retrieve (mkSearchKwargs selected_filter) user_prompt ≠ []) :
    runChatTurn retrieve score generate selected_filter user_prompt =
      { response := generate user_prompt (String.intercalate contextSeparator
          (rerank_docs score user_prompt
            (retrieve (mkSearchKwargs selected_filter) user_prompt)))
        genCalls := [(user_prompt, String.intercalate contextSeparator
          (rerank_docs score user_prompt
            (retrieve (mkSearchKwargs selected_filter) user_prompt)))] } := by
  unfold runChatTurn
  simp [h]

/-- Witness for C5 at a concrete one-chunk retriever. -/
theorem C5_generator_invoked_once_witness :
    ((fun (_ : SearchKwargs) (_ : String) => [Document.mk "chunk a"])
        (mkSearchKwargs "All") "q" ≠ []) ∧
    runChatTurn (fun _ _ => [Document.mk "chunk a"]) (fun _ _ => 0)
        (fun question context => question ++ context) "All" "q" =
      { response := "q" ++ String.intercalate contextSeparator
          (rerank_docs (fun _ _ => 0) "q" [Document.mk "chunk a"])
        genCalls := [("q", String.intercalate contextSeparator
          (rerank_docs (fun _ _ => 0) "q" [Document.mk "chunk a"]))] } :=
  ⟨by decide, C5_generator_invoked_once _ _ _ _ _ (by decide)⟩

/-- C6: handling one user question only appends to the transcript — a user
turn with the typed question, then an assistant turn with the response —
and the prefix of previously existing entries (their positions, roles and
contents) is unchanged. -/
theorem C6_transcript_append_only
    (retrieve : SearchKwargs → String → List Document)
    (score : String → String → Int) (generate : String → String → String)
    (selected_filter : String) (messages : List ChatMessage) (user_prompt : String) :
    (handleUserPrompt retrieve score generate selected_filter messages user_prompt).1 =
      messages ++ [{ role := "user", content := user_prompt },
        { role := "assistant",
          content :=
            (handleUserPrompt retrieve score generate selected_filter
              messages user_prompt).2 }] ∧
    (handleUserPrompt retrieve score generate selected_filter messages user_prompt).1.take
        messages.length = messages := by
  have h1 : (handleUserPrompt retrieve score generate selected_filter messages
      user_prompt).1 =
      messages ++ [{ role := "user", content := user_prompt },
        { role := "assistant",
          content :=
            (handleUserPrompt retrieve score generate selected_filter
              messages user_prompt).2 }] := by
    simp [handleUserPrompt]
  refine ⟨h1, ?_⟩
  rw [h1]
  exact List.take_left _ _

/-- C7 counterexample: a topics file that exists but is malformed does NOT
degrade to `["All"]` — the `except FileNotFoundError` handler (app.py line
92) does not catch `json.JSONDecodeError`, so the parse failure propagates
as an uncaught exception instead of continuing with `["All"]`.  `jsonLoad`
is instantiated with a parser that fails on this content, as `json.load`
does on malformed text. -/
theorem C7_corrupt_topics_counterexample :
    loadAvailableFilters (FileRead.content "corrupt, not a JSON array") (fun _ => none) =
      Except.error "json.decoder.JSONDecodeError" ∧
    loadAvailableFilters (FileRead.content "corrupt, not a JSON array") (fun _ => none) ≠
      Except.ok ["All"] := by
  exact ⟨rfl, fun hc => Except.noConfusion hc⟩

/-- C7 amended: if the topic configuration file is absent, loading degrades
non-fatally to exactly `["All"]` and execution continues; but if the file
exists with malformed content, the parse error is not caught and
propagates (no degradation to `["All"]`). -/
theorem C7_missing_defaults_corrupt_raises
    (jsonLoad : String → Option (List String)) (s : String) (h : jsonLoad s = none) :
    loadAvailableFilters FileRead.missing jsonLoad = Except.ok ["All"] ∧
    loadAvailableFilters (FileRead.content s) jsonLoad =
      Except.error "json.decoder.JSONDecodeError" := by
  refine ⟨rfl, ?_⟩
  simp [loadAvailableFilters, h]

/-- Witness for the amended C7 at a concrete malformed content. -/
theorem C7_missing_defaults_corrupt_raises_witness :
    ((fun (_ : String) => (none : Option (List String))) "corrupt" = none) ∧
    (loadAvailableFilters FileRead.missing (fun _ => none) = Except.ok ["All"] ∧
      loadAvailableFilters (FileRead.content "corrupt") (fun _ => none) =
        Except.error "json.decoder.JSONDecodeError") :=
  ⟨rfl, C7_missing_defaults_corrupt_raises _ "corrupt" rfl⟩

/-- C8: if a required API key (`OPENAI_API_KEY` or `PINECONE_API_KEY`) is
absent from the secret store at startup, startup aborts with the error
message naming the missing key, and no configuration is produced (the
pipeline is never initialised). -/
theorem C8_missing_key_aborts (secrets : String → Option String)
    (h : secrets "OPENAI_API_KEY" = none ∨ secrets "PINECONE_API_KEY" = none) :
    ∃ key, (key = "OPENAI_API_KEY" ∨ key = "PINECONE_API_KEY") ∧
      secrets key = none ∧
      loadConfig secrets = Except.error (missingSecretMessage key) ∧
      ∀ config, loadConfig secrets ≠ Except.ok config := by
  cases ho : secrets "OPENAI_API_KEY" with
  | none =>
    refine ⟨"OPENAI_API_KEY", Or.inl rfl, ho, ?_, ?_⟩
    · unfold loadConfig
      rw [ho]
    · intro config hc
      unfold loadConfig at hc
      rw [ho] at hc
      exact Except.noConfusion hc
  | some v =>
    rcases h with h | h
    · rw [ho] at h
      exact absurd h (by simp)
    · refine ⟨"PINECONE_API_KEY", Or.inr rfl, h, ?_, ?_⟩
      · unfold loadConfig
        rw [ho, h]
      · intro config hc
        unfold loadConfig at hc
        rw [ho, h] at hc
        exact Except.noConfusion hc

/-- Witness for C8 at a concrete empty secret store. -/
theorem C8_missing_key_aborts_witness :
    ((fun (_ : String) => (none : Option String)) "OPENAI_API_KEY" = none ∨
      (fun (_ : String) => (none : Option String)) "PINECONE_API_KEY" = none) ∧
    ∃ key, (key = "OPENAI_API_KEY" ∨ key = "PINECONE_API_KEY") ∧
      (fun (_ : String) => (none : Option String)) key = none ∧
      loadConfig (fun _ => none) = Except.error (missingSecretMessage key) ∧
      ∀ config, loadConfig (fun _ => none) ≠ Except.ok config :=
  ⟨Or.inl rfl, C8_missing_key_aborts _ (Or.inl rfl)⟩

/-- C9 counterexample: with a generation backend that raises, the chat
handler's outcome is the propagated exception (`Except.error`), not
user-visible text produced at the orchestrator boundary — the handler
(app.py lines 114-135) wraps the RAG logic in no `try`/`except`, refuting
the claim that every backend failure is caught there and converted to
text.  (The prior transcript entries do survive, with the user's question
appended.) -/
theorem C9_generator_failure_uncaught :
    handleUserPromptE (fun _ _ => Except.ok [Document.mk "chunk a"])
      (fun _ passages => Except.ok (passages.map (fun p => { text := p, score := 0 })))
      (fun _ _ => Except.error "GenerationUnavailable") "All"
      [{ role := "user", content := "earlier question" },
       { role := "assistant", content := "earlier answer" }] "q" =
      ([{ role := "user", content := "earlier question" },
        { role := "assistant", content := "earlier answer" },
        { role := "user", content := "q" }], Except.error "GenerationUnavailable") := by
  rfl

/-- C9 amended: backend failures during retrieval, reranking, or generation
are not caught by the chat handler and propagate out of the turn as
exceptions; the turn then appends no assistant message, and every
previously existing transcript entry keeps its position, role and content
(the user's question having been appended before the failure). -/
theorem C9_failure_propagates_transcript_intact
    (retrieve : SearchKwargs → String → Except String (List Document))
    (rank : String → List String → Except String (List RankedResult))
    (generate : String → String → Except String String)
    (selected_filter : String) (messages : List ChatMessage) (user_prompt e : String)
    (h : runChatTurnE retrieve rank generate selected_filter user_prompt =
      Except.error e) :
    handleUserPromptE retrieve rank generate selected_filter messages user_prompt =
      (messages ++ [{ role := "user", content := user_prompt }], Except.error e) ∧
    (handleUserPromptE retrieve rank generate selected_filter messages
        user_prompt).1.take messages.length = messages := by
  have h1 : handleUserPromptE retrieve rank generate selected_filter messages
      user_prompt =
      (messages ++ [{ role := "user", content := user_prompt }], Except.error e) := by
    unfold handleUserPromptE
    rw [h]
  refine ⟨h1, ?_⟩
  rw [h1]
  exact List.take_left _ _

/-- Witness for the amended C9 at a concrete failing retrieval backend. -/
theorem C9_failure_propagates_transcript_intact_witness :
    (runChatTurnE (fun _ _ => Except.error "RetrievalUnavailable")
        (fun _ passages => Except.ok (passages.map (fun p => { text := p, score := 0 })))
        (fun _ _ => Except.ok "generated") "All" "q" =
      Except.error "RetrievalUnavailable") ∧
    (handleUserPromptE (fun _ _ => Except.error "RetrievalUnavailable")
        (fun _ passages => Except.ok (passages.map (fun p => { text := p, score := 0 })))
        (fun _ _ => Except.ok "generated") "All"
        [{ role := "user", content := "earlier question" }] "q" =
      ([{ role := "user", content := "earlier question" },
        { role := "user", content := "q" }], Except.error "RetrievalUnavailable") ∧
      (handleUserPromptE (fun _ _ => Except.error "RetrievalUnavailable")
        (fun _ passages => Except.ok (passages.map (fun p => { text := p, score := 0 })))
        (fun _ _ => Except.ok "generated") "All"
        [{ role := "user", content := "earlier question" }] "q").1.take
          ([{ role := "user", content := "earlier question" }] : List ChatMessage).length =
        [({ role := "user", content := "earlier question" } : ChatMessage)]) :=
  ⟨rfl, C9_failure_propagates_transcript_intact _ _ _ _ _ _ _ rfl⟩

/-- C10: absence of `PINECONE_INDEX_NAME` is not a startup error — with
both API keys present and `PINECONE_INDEX_NAME` absent, startup succeeds
and the index name silently defaults to `"eller-executive-edu-ak-final"`;
only the two API keys are required. -/
theorem C10_index_name_defaults (secrets : String → Option String) (okey pkey : String)
    (h1 : secrets "OPENAI_API_KEY" = some okey)
    (h2 : secrets "PINECONE_API_KEY" = some pkey)
    (h3 : secrets "PINECONE_INDEX_NAME" = none) :
    loadConfig secrets = Except.ok
      { openai_api_key := okey
        pinecone_api_key := pkey
        index_name := "eller-executive-edu-ak-final" } := by
  unfold loadConfig
  rw [h1, h2, h3]
  rfl

/-- Witness for C10 at a concrete secret store holding only the two API
keys. -/
theorem C10_index_name_defaults_witness :
    ((fun key => if key = "OPENAI_API_KEY" then some "sk-test"
        else if key = "PINECONE_API_KEY" then some "pc-test"
        else (none : Option String)) "OPENAI_API_KEY" = some "sk-test") ∧
    ((fun key => if key = "OPENAI_API_KEY" then some "sk-test"
        else if key = "PINECONE_API_KEY" then some "pc-test"
        else (none : Option String)) "PINECONE_API_KEY" = some "pc-test") ∧
    ((fun key => if key = "OPENAI_API_KEY" then some "sk-test"
        else if key = "PINECONE_API_KEY" then some "pc-test"
        else (none : Option String)) "PINECONE_INDEX_NAME" = none) ∧
    loadConfig (fun key => if key = "OPENAI_API_KEY" then some "sk-test"
        else if key = "PINECONE_API_KEY" then some "pc-test"
        else (none : Option String)) =
      Except.ok
        ({ openai_api_key := "sk-test"
           pinecone_api_key := "pc-test"
           index_name := "eller-executive-edu-ak-final" } : AppConfig) :=
  ⟨by decide, by decide, by decide,
    C10_index_name_defaults _ _ _ (by decide) (by decide) (by decide)⟩
